import Mathlib

/-!
Shallow embedding of the realtime speech-to-text session engine of the
`diary` repository, centred on `src/lib/stt/realtimeTranscriber.ts`
(the `RealtimeTranscriber` class) and the connection orchestrator in
`src/components/TranscriptionProvider.tsx`.

Conventions of the embedding:
* The mutable fields of the `RealtimeTranscriber` instance become the
  record `TranscriberState`; every method becomes a pure function
  `TranscriberState → TranscriberState × List Emit`, where the `Emit`
  list records, in order, the callback invocations (and outbound data
  channel sends) the method performs.
* Browser resources (media stream, peer connection, data channel) are
  identified by `Nat` ids drawn from the `nextResource` counter; the
  ghost field `released` records, in order, the ids whose underlying
  resource has been stopped or closed (`track.stop()` / `close()`).
* The `async` method `connect` is split at its `await` suspension
  points: `connectStart` is the synchronous prefix up to the first
  `await`, and one `resumeAfter...` function per suspension point is
  the code that runs when that `await` resolves.  The in-flight local
  variables (`localStream`, `localPc`, `localDc`) and the captured
  generation token live in `ConnectAttempt`.
* Inbound data channel messages are modelled by `InboundMessage`: the
  outcome of `JSON.parse` is embedded as a `JsonValue` tree, with
  `notText` for a non-string (or empty) `event.data` and `malformed`
  for a payload on which `JSON.parse` throws.
* JavaScript string operations are modelled on the character sequence
  (`String.data`): `.length` is the character count, `.slice(n)` is
  `sliceFrom`, and truthiness of a string is the test against `""`.
-/

namespace Diary

/-- `ConnectionState` from `src/lib/stt/types.ts`. -/
inductive ConnectionState where
  | disconnected
  | connecting
  | connected
deriving DecidableEq, Repr

/-- Model of a parsed JSON value, the result of `JSON.parse` on an
inbound data channel message.  Objects are association lists of fields
(keys unique, as in a JavaScript object). -/
inductive JsonValue where
  | str (s : String)
  | num (n : Int)
  | boolean (b : Bool)
  | null
  | arr (items : List JsonValue)
  | obj (fields : List (String × JsonValue))

/-- `isJsonObject` (realtimeTranscriber.ts:16-17): a JavaScript object
that is neither `null` nor an array. -/
def isJsonObject : JsonValue → Bool
  | .obj _ => true
  | _ => false

/-- `getString` (realtimeTranscriber.ts:24-27): reads a field of an
object and returns it only when it is a string. -/
def getString (fields : List (String × JsonValue)) (key : String) : Option String :=
  match fields.lookup key with
  | some (.str s) => some s
  | _ => none

/-- `getJsonObject` (realtimeTranscriber.ts:19-22): reads a field of an
object and returns it only when it is itself a plain object. -/
def getJsonObject (fields : List (String × JsonValue)) (key : String) :
    Option (List (String × JsonValue)) :=
  match fields.lookup key with
  | some (.obj inner) => some inner
  | _ => none

/-- Outbound data channel messages sent by `safeSend`
(realtimeTranscriber.ts:412-416).  `sessionUpdate` is the
`session.update` configuration message of `configureSession`
(ts:277-293, payload constants elided); `responseCancel` is the
`response.cancel` message of the `response.created` handler. -/
inductive OutboundMessage where
  | sessionUpdate
  | responseCancel (responseId : String)
deriving DecidableEq, Repr

/-- One observable effect of the session: a callback invocation from
`RealtimeTranscriberCallbacks` (types.ts:12-19) or an outbound data
channel send. -/
inductive Emit where
  | connectionStateChange (state : ConnectionState)
  | listeningChange (isListening : Bool)
  | status (message : String)
  | error (message : String)
  | transcriptDelta (delta : String)
  | transcriptFinal (text : String)
  | send (message : OutboundMessage)
deriving DecidableEq, Repr

/-- The mutable instance fields of `RealtimeTranscriber`
(realtimeTranscriber.ts:29-45).  `currentPartialText` embeds the field
named `currentPartial` in the source.  `dcOpen` models the live data
channel's `readyState === "open"`, `trackEnabled` the `enabled` flag
of the live stream's audio tracks.  `nextResource` and `released` are
ghost bookkeeping for resource ids (see the file header). -/
structure TranscriberState where
  apiKey : String
  pc : Option Nat := none
  dc : Option Nat := none
  mediaStream : Option Nat := none
  dcOpen : Bool := false
  trackEnabled : Bool := false
  connectionState : ConnectionState := .disconnected
  listening : Bool := false
  connectToken : Nat := 0
  activeTranscriptId : Option String := none
  currentPartialText : String := ""
  nextResource : Nat := 0
  released : List Nat := []
deriving DecidableEq, Repr

/-- A freshly constructed transcriber instance (constructor body,
realtimeTranscriber.ts:40-45, after the api key guard passed). -/
def initialTranscriber (apiKey : String) : TranscriberState :=
  { apiKey := apiKey }

/-- The state used as starting point of the concrete scenarios. -/
def initialState : TranscriberState := initialTranscriber "sk-test"

/-- `setListeningState` (realtimeTranscriber.ts:231-235). -/
def setListeningState (isListening : Bool) (s : TranscriberState) :
    TranscriberState × List Emit :=
  if s.listening = isListening then (s, [])
  else ({ s with listening := isListening }, [.listeningChange isListening])

/-- `setConnectionState` (realtimeTranscriber.ts:222-229): a target
other than `Connected` first forces the listening flag to `false`;
the state-change callback fires only when the state actually changes. -/
def setConnectionState (state : ConnectionState) (s : TranscriberState) :
    TranscriberState × List Emit :=
  let step1 := if state ≠ ConnectionState.connected then setListeningState false s else (s, [])
  let s1 := step1.1
  if s1.connectionState = state then (s1, step1.2)
  else ({ s1 with connectionState := state }, step1.2 ++ [.connectionStateChange state])

/-- JavaScript whitespace as recognized by `String.prototype.trim`
(WhiteSpace and LineTerminator code points). -/
def jsWhitespace (c : Char) : Bool :=
  c = ' ' ∨ c = '\t' ∨ c = '\n' ∨ c = '\r' ∨
  c = Char.ofNat 0x0b ∨ c = Char.ofNat 0x0c ∨
  c = Char.ofNat 0xa0 ∨ c = Char.ofNat 0x1680 ∨
  (Char.ofNat 0x2000 ≤ c ∧ c ≤ Char.ofNat 0x200a) ∨
  c = Char.ofNat 0x2028 ∨ c = Char.ofNat 0x2029 ∨
  c = Char.ofNat 0x202f ∨ c = Char.ofNat 0x205f ∨
  c = Char.ofNat 0x3000 ∨ c = Char.ofNat 0xfeff

/-- JavaScript `String.prototype.trim`: strips leading and trailing
JavaScript whitespace. -/
def jsTrim (s : String) : String :=
  String.mk (((s.data.dropWhile jsWhitespace).reverse.dropWhile jsWhitespace).reverse)

/-- `status` (realtimeTranscriber.ts:237-241): trims the message and
fires the status callback only when the trimmed text is non-empty. -/
def statusEmit (message : String) : List Emit :=
  let trimmed := jsTrim message
  if trimmed = "" then [] else [.status trimmed]

/-- `handleError` (realtimeTranscriber.ts:243-249), with the error
carried as its message string. -/
def handleError (message : String) : List Emit :=
  [.error message]

/-- `resetTranscriptState` (realtimeTranscriber.ts:490-493). -/
def resetTranscriptState (s : TranscriberState) : TranscriberState :=
  { s with activeTranscriptId := none, currentPartialText := "" }

/-- `stopListening` (realtimeTranscriber.ts:204-215). -/
def stopListening (skipStatusUpdate : Bool) (s : TranscriberState) :
    TranscriberState × List Emit :=
  if s.listening = false then (s, [])
  else
    let s1 := if s.mediaStream.isSome then { s with trackEnabled := false } else s
    let step2 := setListeningState false s1
    (step2.1, step2.2 ++ if skipStatusUpdate then [] else statusEmit "Processing. Stand by.")

/-- Closing the live data channel during `teardown`
(realtimeTranscriber.ts:453-463): handlers detached, channel closed,
field nulled. -/
def releaseDc (s : TranscriberState) : TranscriberState :=
  match s.dc with
  | some r => { s with dc := none, dcOpen := false, released := s.released ++ [r] }
  | none => s

/-- Closing the live peer connection during `teardown`
(realtimeTranscriber.ts:465-473). -/
def releasePc (s : TranscriberState) : TranscriberState :=
  match s.pc with
  | some r => { s with pc := none, released := s.released ++ [r] }
  | none => s

/-- Stopping the live media stream's tracks during `teardown`
(realtimeTranscriber.ts:475-478). -/
def releaseStream (s : TranscriberState) : TranscriberState :=
  match s.mediaStream with
  | some r => { s with mediaStream := none, released := s.released ++ [r] }
  | none => s

/-- `TeardownOptions` (realtimeTranscriber.ts:9-12). -/
structure TeardownOptions where
  keepState : Bool := false
  preserveStatus : Bool := false

/-- `teardown` (realtimeTranscriber.ts:446-488). -/
def teardown (options : TeardownOptions) (s : TranscriberState) :
    TranscriberState × List Emit :=
  let step1 := if s.listening then stopListening true s else (s, [])
  let s2 := releaseStream (releasePc (releaseDc step1.1))
  let s3 := resetTranscriptState s2
  if options.keepState then (s3, step1.2)
  else
    let step4 := setConnectionState ConnectionState.disconnected s3
    (step4.1, step1.2 ++ step4.2 ++
      if options.preserveStatus then [] else statusEmit "Disconnected.")

/-- `invalidateConnectionAttempts` (realtimeTranscriber.ts:495-497). -/
def invalidateConnectionAttempts (s : TranscriberState) : TranscriberState :=
  { s with connectToken := s.connectToken + 1 }

/-- `isCurrentToken` (realtimeTranscriber.ts:499-501). -/
def isCurrentToken (token : Nat) (s : TranscriberState) : Bool :=
  token = s.connectToken

/-- `disconnect` (realtimeTranscriber.ts:183-186). -/
def disconnect (s : TranscriberState) : TranscriberState × List Emit :=
  teardown {} (invalidateConnectionAttempts s)

/-- JavaScript `String.prototype.slice(start)` on the character
sequence, used for `finalText.slice(this.currentPartial.length)`
(realtimeTranscriber.ts:399). -/
def sliceFrom (s : String) (n : Nat) : String :=
  String.mk (s.data.drop n)

/-- `handleTranscriptDelta` (realtimeTranscriber.ts:382-390).  The
`itemId` parameter is `string | null` in the source, guarded by
`if (!itemId) return`; callers pass strings, so the guard here is the
emptiness test. -/
def handleTranscriptDelta (itemId : String) (delta : String) (s : TranscriberState) :
    TranscriberState × List Emit :=
  if itemId = "" then (s, [])
  else
    let s1 :=
      if s.activeTranscriptId ≠ some itemId then
        { s with activeTranscriptId := some itemId, currentPartialText := "" }
      else s
    ({ s1 with currentPartialText := s1.currentPartialText ++ delta },
      [.transcriptDelta delta])

/-- `handleTranscriptComplete` (realtimeTranscriber.ts:392-410).  Note
that when the item id differs from the active one, only the id is
switched: `currentPartial` is left as is before the suffix
computation. -/
def handleTranscriptComplete (itemId : String) (text : String) (s : TranscriberState) :
    TranscriberState × List Emit :=
  if itemId = "" then (s, [])
  else
    let s1 :=
      if s.activeTranscriptId ≠ some itemId then
        { s with activeTranscriptId := some itemId }
      else s
    let finalText := text
    let deltaEmits :=
      if finalText ≠ "" ∧ s1.currentPartialText.length < finalText.length then
        let extra := sliceFrom finalText s1.currentPartialText.length
        if extra ≠ "" then [Emit.transcriptDelta extra] else []
      else []
    let finalEmits := if finalText ≠ "" then [Emit.transcriptFinal finalText] else []
    (resetTranscriptState s1, deltaEmits ++ finalEmits ++ statusEmit "Ready.")

/-- `safeSend` (realtimeTranscriber.ts:412-416): sends only when the
live data channel exists and its `readyState` is `"open"`. -/
def safeSend (message : OutboundMessage) (s : TranscriberState) : List Emit :=
  if s.dc.isSome ∧ s.dcOpen then [.send message] else []

/-- `configureSession` (realtimeTranscriber.ts:277-293). -/
def configureSession (s : TranscriberState) : List Emit :=
  safeSend .sessionUpdate s

/-- `handleDataChannelOpen` (realtimeTranscriber.ts:251-257). -/
def handleDataChannelOpen (token : Nat) (s : TranscriberState) :
    TranscriberState × List Emit :=
  if isCurrentToken token s = false then (s, [])
  else
    let e1 := statusEmit "Connected. Configuring."
    let step2 := setConnectionState ConnectionState.connected s
    let s3 := resetTranscriptState step2.1
    (s3, e1 ++ step2.2 ++ configureSession s3)

/-- The `onopen` event of the live data channel: the channel's
`readyState` becomes `"open"` and the bound `handleDataChannelOpen`
runs with the token captured at channel creation.  The `readyState`
flip is applied only when the event belongs to the live attempt. -/
def channelOpenEvent (token : Nat) (s : TranscriberState) :
    TranscriberState × List Emit :=
  handleDataChannelOpen token (if isCurrentToken token s then { s with dcOpen := true } else s)

/-- `handleDataChannelClosed` (realtimeTranscriber.ts:259-263). -/
def handleDataChannelClosed (token : Nat) (s : TranscriberState) :
    TranscriberState × List Emit :=
  if isCurrentToken token s = false then (s, [])
  else
    let e1 := statusEmit "Connection closed."
    let step2 := teardown {} s
    (step2.1, e1 ++ step2.2)

/-- The `RTCPeerConnection.connectionState` values. -/
inductive PeerConnectionState where
  | newPeer
  | connectingPeer
  | connectedPeer
  | failed
  | disconnectedPeer
  | closed
deriving DecidableEq, Repr

/-- `handlePeerConnectionStateChange` (realtimeTranscriber.ts:265-275). -/
def handlePeerConnectionStateChange (token : Nat) (peerState : PeerConnectionState)
    (s : TranscriberState) : TranscriberState × List Emit :=
  if isCurrentToken token s = false then (s, [])
  else if peerState = .failed ∨ peerState = .disconnectedPeer ∨ peerState = .closed then
    let e1 := statusEmit "Connection lost."
    let step2 := teardown {} s
    (step2.1, e1 ++ step2.2)
  else (s, [])

/-- Extraction of the nested error message in the `error` and
`response.error` branches (realtimeTranscriber.ts:311-312, 375-376):
`(errorObj && getString(errorObj, "message")) || "unknown"` — absent,
non-string, or empty messages all fall back to `"unknown"`. -/
def extractErrorMessage (fields : List (String × JsonValue)) : String :=
  match getJsonObject fields "error" with
  | some errorObj =>
    match getString errorObj "message" with
    | some msg => if msg = "" then "unknown" else msg
    | none => "unknown"
  | none => "unknown"

/-- The outcome of receiving one data channel `message` event:
`notText` for a non-string or empty `event.data` (dropped at
realtimeTranscriber.ts:296-297), `malformed` for a string on which
`JSON.parse` throws (ts:300-304), `value v` for a successful parse. -/
inductive InboundMessage where
  | notText
  | malformed
  | value (v : JsonValue)

/-- The recognized `type` discriminators of the inbound protocol
(realtimeTranscriber.ts:310-379). -/
def recognizedTypes : List String :=
  ["error", "response.created",
   "conversation.item.input_audio_transcription.delta",
   "conversation.item.input_audio_transcription.completed",
   "transcript.delta", "transcript.completed",
   "session.updated", "response.error"]

/-- `onRealtimeEvent` (realtimeTranscriber.ts:295-380): parse, object
check, then dispatch on the `type` discriminator in source order. -/
def onRealtimeEvent (event : InboundMessage) (s : TranscriberState) :
    TranscriberState × List Emit :=
  match event with
  | .notText => (s, [])
  | .malformed => (s, [])
  | .value parsed =>
    match parsed with
    | .obj fields =>
      let ty := (getString fields "type").getD ""
      if ty = "error" then
        let message := extractErrorMessage fields
        (s, statusEmit ("Error: " ++ message) ++ [.error message])
      else if ty = "response.created" then
        let responseId :=
          match getJsonObject fields "response" with
          | some responseObj => getString responseObj "id"
          | none => none
        match responseId with
        | some rid => if rid ≠ "" then (s, safeSend (.responseCancel rid) s) else (s, [])
        | none => (s, [])
      else if ty = "conversation.item.input_audio_transcription.delta" then
        match getString fields "item_id", getString fields "delta" with
        | some itemId, some delta =>
          if itemId ≠ "" ∧ delta ≠ "" then handleTranscriptDelta itemId delta s else (s, [])
        | _, _ => (s, [])
      else if ty = "conversation.item.input_audio_transcription.completed" then
        match getString fields "item_id" with
        | some itemId =>
          let transcript := ((getString fields "transcript").orElse
            fun _ => getString fields "text").getD ""
          if itemId ≠ "" then handleTranscriptComplete itemId transcript s else (s, [])
        | none => (s, [])
      else if ty = "transcript.delta" then
        let itemId := (getString fields "item_id").getD "default"
        match getString fields "delta" with
        | some delta => if delta ≠ "" then handleTranscriptDelta itemId delta s else (s, [])
        | none => (s, [])
      else if ty = "transcript.completed" then
        let itemId := (getString fields "item_id").getD "default"
        match getString fields "text" with
        | some text => if text ≠ "" then handleTranscriptComplete itemId text s else (s, [])
        | none => (s, [])
      else if ty = "session.updated" then
        (s, statusEmit "Ready.")
      else if ty = "response.error" then
        let message := extractErrorMessage fields
        (s, statusEmit ("Error: " ++ message) ++ [.error message])
      else (s, [])
    | _ => (s, [])

/-- The local variables of one in-flight `connect()` attempt
(realtimeTranscriber.ts:69, 75-77): the generation token captured at
entry and the locally created resources not yet committed to the
instance fields. -/
structure ConnectAttempt where
  token : Nat
  localStream : Option Nat := none
  localPc : Option Nat := none
  localDc : Option Nat := none
deriving DecidableEq, Repr

/-- Ghost allocation of a fresh browser resource id. -/
def allocResource (s : TranscriberState) : Nat × TranscriberState :=
  (s.nextResource, { s with nextResource := s.nextResource + 1 })

/-- `cleanupLocalConnection` (realtimeTranscriber.ts:418-444): closes
the attempt's data channel, then its peer connection, then stops its
stream's tracks.  Only the ghost `released` log changes: the instance
fields are not touched. -/
def cleanupLocalConnection (a : ConnectAttempt) (s : TranscriberState) : TranscriberState :=
  { s with released := s.released ++ a.localDc.toList ++ a.localPc.toList ++ a.localStream.toList }

/-- The synchronous prefix of `connect()` up to the first `await`
(realtimeTranscriber.ts:59-87): the Connected/Connecting no-op guards,
the token bump, the move to `Connecting`, the "Requesting microphone."
status, and the state-preserving teardown of any previous resources.
The browser environment guards (ts:62-67) are modelled as satisfied.
Returns `none` when the call was a guard no-op, otherwise the new
in-flight attempt (now awaiting `getUserMedia`). -/
def connectStart (s : TranscriberState) :
    TranscriberState × List Emit × Option ConnectAttempt :=
  if s.connectionState = ConnectionState.connected then (s, [], none)
  else if s.connectionState = ConnectionState.connecting then (s, [], none)
  else
    let s1 := { s with connectToken := s.connectToken + 1 }
    let token := s1.connectToken
    let step2 := setConnectionState ConnectionState.connecting s1
    let e3 := statusEmit "Requesting microphone."
    let step4 := teardown { keepState := true, preserveStatus := true } step2.1
    (step4.1, step2.2 ++ e3 ++ step4.2, some { token := token })

/-- Resumption after `getUserMedia` resolves
(realtimeTranscriber.ts:80-114): stores the stream, re-checks the
token, emits "Building connection.", creates the peer connection with
its disabled tracks, re-checks the token, and creates the data
channel.  Ends awaiting `createOffer`. -/
def resumeAfterGetUserMedia (a : ConnectAttempt) (s : TranscriberState) :
    TranscriberState × List Emit × Option ConnectAttempt :=
  let alloc1 := allocResource s
  let a1 := { a with localStream := some alloc1.1 }
  let s1 := alloc1.2
  if isCurrentToken a1.token s1 = false then (cleanupLocalConnection a1 s1, [], none)
  else
    let e2 := statusEmit "Building connection."
    let alloc2 := allocResource s1
    let a2 := { a1 with localPc := some alloc2.1 }
    let s2 := alloc2.2
    if isCurrentToken a2.token s2 = false then (cleanupLocalConnection a2 s2, e2, none)
    else
      let alloc3 := allocResource s2
      let a3 := { a2 with localDc := some alloc3.1 }
      (alloc3.2, e2, some a3)

/-- Resumption after `createOffer` resolves
(realtimeTranscriber.ts:116-121): token re-check only.  Ends awaiting
`setLocalDescription`. -/
def resumeAfterCreateOffer (a : ConnectAttempt) (s : TranscriberState) :
    TranscriberState × List Emit × Option ConnectAttempt :=
  if isCurrentToken a.token s = false then (cleanupLocalConnection a s, [], none)
  else (s, [], some a)

/-- Resumption after `setLocalDescription` resolves
(realtimeTranscriber.ts:123-130): token re-check, then the
"Exchanging SDP." status.  Ends awaiting the signaling `fetch`. -/
def resumeAfterSetLocalDescription (a : ConnectAttempt) (s : TranscriberState) :
    TranscriberState × List Emit × Option ConnectAttempt :=
  if isCurrentToken a.token s = false then (cleanupLocalConnection a s, [], none)
  else (s, statusEmit "Exchanging SDP.", some a)

/-- The `catch` block of `connect()` (realtimeTranscriber.ts:173-180):
release the attempt's local resources; if the attempt is still
current, surface the error and revert to `Disconnected`. -/
def connectCatch (message : String) (a : ConnectAttempt) (s : TranscriberState) :
    TranscriberState × List Emit × Option ConnectAttempt :=
  let s1 := cleanupLocalConnection a s
  if isCurrentToken a.token s1 = false then (s1, [], none)
  else
    let e2 := handleError message
    let step3 := setConnectionState ConnectionState.disconnected s1
    (step3.1, e2 ++ step3.2, none)

/-- Resumption after the signaling `fetch` resolves
(realtimeTranscriber.ts:143-152): token re-check, then the
`response.ok` check — a non-success response throws into the `catch`
block.  On success, ends awaiting `response.text()`. -/
def resumeAfterFetch (ok : Bool) (httpStatus : String) (a : ConnectAttempt)
    (s : TranscriberState) : TranscriberState × List Emit × Option ConnectAttempt :=
  if isCurrentToken a.token s = false then (cleanupLocalConnection a s, [], none)
  else if ok = false then connectCatch ("SDP exchange failed: " ++ httpStatus) a s
  else (s, [], some a)

/-- Resumption after `response.text()` resolves
(realtimeTranscriber.ts:154-159): token re-check only.  Ends awaiting
`setRemoteDescription`. -/
def resumeAfterResponseText (a : ConnectAttempt) (s : TranscriberState) :
    TranscriberState × List Emit × Option ConnectAttempt :=
  if isCurrentToken a.token s = false then (cleanupLocalConnection a s, [], none)
  else (s, [], some a)

/-- Resumption after `setRemoteDescription` resolves
(realtimeTranscriber.ts:161-172): token re-check, then the commit of
the attempt's resources to the instance fields and the
"Waiting for channel." status.  The attempt has settled. -/
def resumeAfterSetRemoteDescription (a : ConnectAttempt) (s : TranscriberState) :
    TranscriberState × List Emit × Option ConnectAttempt :=
  if isCurrentToken a.token s = false then (cleanupLocalConnection a s, [], none)
  else
    ({ s with
        pc := a.localPc
        dc := a.localDc
        mediaStream := a.localStream
        dcOpen := false
        trackEnabled := false },
      statusEmit "Waiting for channel.", none)

/-- Sequencing of attempt steps: a step runs only while the attempt is
still in flight, and emissions accumulate in order. -/
def bindStep (r : TranscriberState × List Emit × Option ConnectAttempt)
    (f : ConnectAttempt → TranscriberState → TranscriberState × List Emit × Option ConnectAttempt) :
    TranscriberState × List Emit × Option ConnectAttempt :=
  match r with
  | (s, e, none) => (s, e, none)
  | (s, e, some a) =>
    let r2 := f a s
    (r2.1, e ++ r2.2.1, r2.2.2)

/-- Runs a list of attempt steps in order. -/
def runSteps
    (steps : List (ConnectAttempt → TranscriberState → TranscriberState × List Emit × Option ConnectAttempt))
    (r : TranscriberState × List Emit × Option ConnectAttempt) :
    TranscriberState × List Emit × Option ConnectAttempt :=
  match steps with
  | [] => r
  | f :: fs => runSteps fs (bindStep r f)

/-- The six suspension-point resumptions of `connect()` in order, with
a successful environment (capture granted, offer/answer applied, the
signaling exchange returning a success response). -/
def successSteps :
    List (ConnectAttempt → TranscriberState → TranscriberState × List Emit × Option ConnectAttempt) :=
  [resumeAfterGetUserMedia, resumeAfterCreateOffer, resumeAfterSetLocalDescription,
   resumeAfterFetch true "", resumeAfterResponseText, resumeAfterSetRemoteDescription]

/-- The tail of `startListening` past its connect branch
(realtimeTranscriber.ts:193-201): the already-listening no-op guard,
enabling the audio tracks, resetting transcript state, raising the
listening flag, and the "Listening." status. -/
def startListeningTail (s : TranscriberState) : TranscriberState × List Emit :=
  if s.listening then (s, [])
  else
    let s1 := if s.mediaStream.isSome then { s with trackEnabled := true } else s
    let s2 := resetTranscriptState s1
    let step3 := setListeningState true s2
    (step3.1, step3.2 ++ statusEmit "Listening.")

/-- Entry of `startListening` (realtimeTranscriber.ts:188-202) for a
state that is not `Disconnected`: the connect branch is skipped and
the synchronous tail runs at once.  (For a `Disconnected` entry the
call is `connect()` followed, at its resolution, by
`startListeningResume`.) -/
def startListeningImmediate (s : TranscriberState) : TranscriberState × List Emit :=
  if s.connectionState = ConnectionState.disconnected then (s, [])
  else startListeningTail s

/-- Continuation of a `Disconnected`-entry `startListening` after the
awaited `connect()` resolves (realtimeTranscriber.ts:190-191): abort
unless the state reached `Connected`, then run the tail. -/
def startListeningResume (s : TranscriberState) : TranscriberState × List Emit :=
  if s.connectionState ≠ ConnectionState.connected then (s, [])
  else startListeningTail s

/-- Scenario A (spec §8): a fresh session with a credential set,
`startListening()` called.  The entry state is `Disconnected`, so
`connect()` runs; every negotiation step succeeds; the data channel
reports open (with the token captured at its creation, here 1); then
the `startListening` continuation resumes.  The second component is
the full ordered emission log. -/
def scenarioA : TranscriberState × List Emit :=
  let r1 := runSteps successSteps (connectStart initialState)
  let r2 := channelOpenEvent 1 r1.1
  let r3 := startListeningResume r2.1
  (r3.1, r1.2.1 ++ r2.2 ++ r3.2)

/-- The emission log of Scenario A. -/
def scenarioALog : List Emit := scenarioA.2

/-- Boolean test that `l1` occurs, in order, as a (not necessarily
contiguous) subsequence of `l2`. -/
def isSubseq : List Emit → List Emit → Bool
  | [], _ => true
  | _ :: _, [] => false
  | a :: as, b :: bs => if a = b then isSubseq as bs else isSubseq (a :: as) bs

/-- Injection of a second `connect()` call into an in-flight run: the
second call executes synchronously at the injection point; its
emissions join the log, while the in-flight attempt of the first call
is untouched. -/
def injectSecondConnect (r : TranscriberState × List Emit × Option ConnectAttempt) :
    TranscriberState × List Emit × Option ConnectAttempt :=
  let r2 := connectStart r.1
  (r2.1, r.2.1 ++ r2.2.1, r.2.2)

/-- The double-connect interleaving of spec §8: a first `connect()`
from the initial state, a second `connect()` call injected after the
first call's k-th suspension point (k = 0: before `getUserMedia`
resolves), and the first attempt then running to completion with a
successful environment. -/
def doubleConnectRun (k : Nat) : TranscriberState × List Emit × Option ConnectAttempt :=
  runSteps (successSteps.drop k)
    (injectSecondConnect (runSteps (successSteps.take k) (connectStart initialState)))

/-- The result of the second `connect()` call alone at its injection
point in `doubleConnectRun k`. -/
def doubleConnectSecondCall (k : Nat) : TranscriberState × List Emit × Option ConnectAttempt :=
  connectStart (runSteps (successSteps.take k) (connectStart initialState)).1

/-- The atomic transitions of the session, for quantifying over every
public operation and handler: each `async` method appears as its
synchronous segments, with the scheduling of resumptions left to the
trace.  The in-flight attempt data carried by resumption operations
ranges over all values, over-approximating the reachable behaviors. -/
inductive Op where
  | connectCall
  | resumeGetUserMedia (a : ConnectAttempt)
  | resumeCreateOffer (a : ConnectAttempt)
  | resumeSetLocalDescription (a : ConnectAttempt)
  | resumeFetch (ok : Bool) (httpStatus : String) (a : ConnectAttempt)
  | resumeResponseText (a : ConnectAttempt)
  | resumeSetRemoteDescription (a : ConnectAttempt)
  | connectThrow (message : String) (a : ConnectAttempt)
  | disconnectCall
  | disposeCall
  | startListeningCall
  | startListeningResumeOp
  | stopListeningCall (skipStatusUpdate : Bool)
  | channelOpen (token : Nat)
  | channelClosed (token : Nat)
  | peerStateChange (token : Nat) (peerState : PeerConnectionState)
  | message (event : InboundMessage)

/-- Effect of one atomic transition on the session state.
`disposeCall` is `dispose` (realtimeTranscriber.ts:217-220), whose
state effect is that of `disconnect` (the callback bag clearing has no
state counterpart here).  A `startListeningCall` on a `Disconnected`
state is the synchronous prefix of its awaited `connect()`. -/
def applyOp : Op → TranscriberState → TranscriberState × List Emit
  | .connectCall, s => ((connectStart s).1, (connectStart s).2.1)
  | .resumeGetUserMedia a, s => ((resumeAfterGetUserMedia a s).1, (resumeAfterGetUserMedia a s).2.1)
  | .resumeCreateOffer a, s => ((resumeAfterCreateOffer a s).1, (resumeAfterCreateOffer a s).2.1)
  | .resumeSetLocalDescription a, s =>
    ((resumeAfterSetLocalDescription a s).1, (resumeAfterSetLocalDescription a s).2.1)
  | .resumeFetch ok st a, s => ((resumeAfterFetch ok st a s).1, (resumeAfterFetch ok st a s).2.1)
  | .resumeResponseText a, s => ((resumeAfterResponseText a s).1, (resumeAfterResponseText a s).2.1)
  | .resumeSetRemoteDescription a, s =>
    ((resumeAfterSetRemoteDescription a s).1, (resumeAfterSetRemoteDescription a s).2.1)
  | .connectThrow msg a, s => ((connectCatch msg a s).1, (connectCatch msg a s).2.1)
  | .disconnectCall, s => disconnect s
  | .disposeCall, s => disconnect s
  | .startListeningCall, s =>
    if s.connectionState = ConnectionState.disconnected then
      ((connectStart s).1, (connectStart s).2.1)
    else startListeningTail s
  | .startListeningResumeOp, s => startListeningResume s
  | .stopListeningCall skip, s => stopListening skip s
  | .channelOpen token, s => channelOpenEvent token s
  | .channelClosed token, s => handleDataChannelClosed token s
  | .peerStateChange token ps, s => handlePeerConnectionStateChange token ps s
  | .message ev, s => onRealtimeEvent ev s

/-- Runs a trace of atomic transitions, returning the final state. -/
def runOps (ops : List Op) (s : TranscriberState) : TranscriberState :=
  match ops with
  | [] => s
  | op :: rest => runOps rest (applyOp op s).1

/-- The `RealtimeTranscriber` constructor (realtimeTranscriber.ts:40-45):
throws when `apiKey.trim()` is empty, otherwise yields a fresh
instance. -/
def mkTranscriber (apiKey : String) : Except String TranscriberState :=
  if jsTrim apiKey = "" then
    Except.error "API key is required to initialise RealtimeTranscriber"
  else Except.ok (initialTranscriber apiKey)

/-- The observable state of the connection orchestrator
(`TranscriptionProvider`, TranscriptionProvider.tsx:50-62): the stored
credential, the lazily created session, the memoized pending-connect
marker, the registered transcript listener (by id), and the mirrored
error state. -/
structure OrchestratorState where
  apiKey : Option String := none
  transcriber : Option TranscriberState := none
  pendingConnect : Bool := false
  listener : Option Nat := none
  errorText : Option String := none
deriving DecidableEq, Repr

/-- How far the synchronous decision prefix of `ensureConnected` got.
`failedNoKey` and `failedInit` are its two immediate rejections,
`thrown` a constructor throw propagating out, `alreadyConnected` the
immediate resolution, `awaitPending` joining the memoized promise, and
`startConnect` the start of one new `connect()` negotiation. -/
inductive EnsureOutcome where
  | failedNoKey
  | failedInit
  | thrown (message : String)
  | alreadyConnected
  | awaitPending
  | startConnect
deriving DecidableEq, Repr

/-- `ensureTranscriber` (TranscriptionProvider.tsx:110-119): with a
credential present, lazily constructs the session; a constructor
throw propagates. -/
def ensureTranscriber (o : OrchestratorState) : Except String OrchestratorState :=
  match o.apiKey with
  | none => Except.ok o
  | some key =>
    if o.transcriber.isSome then Except.ok o
    else
      match mkTranscriber key with
      | Except.ok t => Except.ok { o with transcriber := some t }
      | Except.error e => Except.error e

/-- The synchronous decision prefix of `ensureConnected`
(TranscriptionProvider.tsx:121-150): the credential guard (which sets
the error state and rejects), the lazy session construction, the
already-connected and pending-connect short circuits, and otherwise
the start of one memoized `connect()`. -/
def ensureConnectedEntry (o : OrchestratorState) : OrchestratorState × EnsureOutcome :=
  if o.apiKey.isNone then
    ({ o with errorText := some "OpenAI API key required." }, .failedNoKey)
  else
    match ensureTranscriber o with
    | Except.error e => (o, .thrown e)
    | Except.ok o1 =>
      match o1.transcriber with
      | none =>
        ({ o1 with errorText := some "Unable to initialise transcription session." },
          .failedInit)
      | some t =>
        if t.connectionState = ConnectionState.connected then (o1, .alreadyConnected)
        else if o1.pendingConnect then (o1, .awaitPending)
        else ({ o1 with pendingConnect := true }, .startConnect)

/-- The synchronous entry of the orchestrator's `startListening`
(TranscriptionProvider.tsx:159-180): registers the listener as the
sole transcript recipient, then runs `ensureConnected`; a rejection is
caught, mirrored into the error state, and rethrown. -/
def orchStartListeningEntry (listener : Option Nat) (o : OrchestratorState) :
    OrchestratorState × EnsureOutcome :=
  let o1 := { o with listener := listener }
  let step := ensureConnectedEntry o1
  match step.2 with
  | .failedNoKey => ({ step.1 with errorText := some "OpenAI API key required." }, .failedNoKey)
  | .failedInit =>
    ({ step.1 with errorText := some "Unable to initialise transcription session." },
      .failedInit)
  | .thrown e => ({ step.1 with errorText := some e }, .thrown e)
  | r => (step.1, r)

/-- Concatenation of a list of text chunks (the `d1+...+dn` of the
gap-free reconstruction property). -/
def concatStrings (chunks : List String) : String :=
  match chunks with
  | [] => ""
  | d :: rest => d ++ concatStrings rest

/-- Feeds a sequence of delta events for one item id through
`handleTranscriptDelta`, accumulating the emissions in order. -/
def runDeltas (itemId : String) (ds : List String) (s : TranscriberState) :
    TranscriberState × List Emit :=
  match ds with
  | [] => (s, [])
  | d :: rest =>
    let r1 := handleTranscriptDelta itemId d s
    let r2 := runDeltas itemId rest r1.1
    (r2.1, r1.2 ++ r2.2)

/-- The payloads of the delta callbacks in an emission log, in order. -/
def deltaPayloads (es : List Emit) : List String :=
  es.filterMap fun e =>
    match e with
    | .transcriptDelta d => some d
    | _ => none

/-- The payloads of the final callbacks in an emission log, in order. -/
def finalPayloads (es : List Emit) : List String :=
  es.filterMap fun e =>
    match e with
    | .transcriptFinal t => some t
    | _ => none

/-! Helper lemmas. -/

theorem sliceFrom_append (a b : String) : sliceFrom (a ++ b) a.length = b := by
  show String.mk (((a ++ b).data).drop a.data.length) = b
  rw [String.data_append, List.drop_left]

theorem sliceFrom_ne_empty (F : String) (n : Nat) (h : n < F.length) :
    sliceFrom F n ≠ "" := by
  intro hc
  have hdata : F.data.drop n = [] := congrArg String.data hc
  have h2 := List.drop_eq_nil_iff.mp hdata
  have h3 : F.length = F.data.length := rfl
  omega

theorem string_ne_empty_of_length_pos (a : String) (h : 0 < a.length) : a ≠ "" := by
  intro hc
  rw [hc] at h
  exact absurd h (by decide)

theorem string_pos_of_ne_empty (a : String) (h : a ≠ "") : 0 < a.length := by
  cases a with
  | mk l =>
    cases l with
    | nil => exact absurd rfl h
    | cons c cs => simp [String.length]

theorem concatStrings_append (l1 l2 : List String) :
    concatStrings (l1 ++ l2) = concatStrings l1 ++ concatStrings l2 := by
  induction l1 with
  | nil => simp [concatStrings]
  | cons d rest ih =>
    show d ++ concatStrings (rest ++ l2) = (d ++ concatStrings rest) ++ concatStrings l2
    rw [ih, String.append_assoc]

theorem deltaPayloads_append (e1 e2 : List Emit) :
    deltaPayloads (e1 ++ e2) = deltaPayloads e1 ++ deltaPayloads e2 := by
  simp [deltaPayloads]

theorem finalPayloads_append (e1 e2 : List Emit) :
    finalPayloads (e1 ++ e2) = finalPayloads e1 ++ finalPayloads e2 := by
  simp [finalPayloads]

theorem deltaPayloads_map (ds : List String) :
    deltaPayloads (ds.map Emit.transcriptDelta) = ds := by
  induction ds with
  | nil => rfl
  | cons d rest ih =>
    simp only [List.map_cons, deltaPayloads, List.filterMap_cons]
    simp only [deltaPayloads] at ih
    rw [ih]

theorem finalPayloads_map_delta (ds : List String) :
    finalPayloads (ds.map Emit.transcriptDelta) = [] := by
  induction ds with
  | nil => rfl
  | cons d rest ih =>
    simp only [List.map_cons, finalPayloads, List.filterMap_cons]
    simp only [finalPayloads] at ih
    rw [ih]

theorem handleTranscriptDelta_matching (itemId d : String) (s : TranscriberState)
    (hid : itemId ≠ "") (hA : s.activeTranscriptId = some itemId) :
    handleTranscriptDelta itemId d s =
      ({ s with currentPartialText := s.currentPartialText ++ d }, [.transcriptDelta d]) := by
  simp [handleTranscriptDelta, hid, hA]

theorem handleTranscriptDelta_fresh (itemId d : String) (s : TranscriberState)
    (hid : itemId ≠ "") (hA : s.activeTranscriptId ≠ some itemId) :
    handleTranscriptDelta itemId d s =
      ({ s with activeTranscriptId := some itemId, currentPartialText := d },
        [.transcriptDelta d]) := by
  simp [handleTranscriptDelta, hid, hA, String.empty_append]

theorem runDeltas_matching (itemId : String) (ds : List String) (s : TranscriberState)
    (hid : itemId ≠ "") (hA : s.activeTranscriptId = some itemId) :
    runDeltas itemId ds s =
      ({ s with currentPartialText := s.currentPartialText ++ concatStrings ds },
        ds.map Emit.transcriptDelta) := by
  induction ds generalizing s with
  | nil => simp [runDeltas, concatStrings, String.append_empty]
  | cons d rest ih =>
    simp only [runDeltas, handleTranscriptDelta_matching itemId d s hid hA]
    rw [ih { s with currentPartialText := s.currentPartialText ++ d } hA]
    simp [concatStrings, String.append_assoc]

theorem statusEmit_ready : statusEmit "Ready." = [Emit.status "Ready."] := by decide

theorem handleTranscriptComplete_eq (itemId F : String) (s : TranscriberState)
    (hid : itemId ≠ "") :
    handleTranscriptComplete itemId F s =
      (resetTranscriptState s,
        (if F ≠ "" ∧ s.currentPartialText.length < F.length then
          (if sliceFrom F s.currentPartialText.length ≠ "" then
            [Emit.transcriptDelta (sliceFrom F s.currentPartialText.length)] else [])
         else []) ++
        (if F ≠ "" then [Emit.transcriptFinal F] else []) ++ [Emit.status "Ready."]) := by
  by_cases hA : s.activeTranscriptId = some itemId
  · simp [handleTranscriptComplete, hid, hA, statusEmit_ready, resetTranscriptState]
  · simp [handleTranscriptComplete, hid, hA, statusEmit_ready, resetTranscriptState]

theorem handleTranscriptComplete_extends (itemId F rest : String) (s : TranscriberState)
    (hid : itemId ≠ "") (hF : F = s.currentPartialText ++ rest) :
    handleTranscriptComplete itemId F s =
      (resetTranscriptState s,
        (if rest = "" then [] else [Emit.transcriptDelta rest]) ++
        (if F = "" then [] else [Emit.transcriptFinal F]) ++ [Emit.status "Ready."]) := by
  rw [handleTranscriptComplete_eq itemId F s hid]
  have hlen : F.length = s.currentPartialText.length + rest.length := by
    rw [hF, String.length_append]
  by_cases hrest : rest = ""
  · have hr0 : rest.length = 0 := by subst hrest; rfl
    have hnl : ¬ s.currentPartialText.length < F.length := by omega
    simp [hrest, hnl]
  · have hrpos : 0 < rest.length := string_pos_of_ne_empty rest hrest
    have hlen2 : s.currentPartialText.length < F.length := by omega
    have hFne : F ≠ "" := string_ne_empty_of_length_pos F (by omega)
    have hslice : sliceFrom F s.currentPartialText.length = rest := by
      rw [hF]; exact sliceFrom_append _ _
    simp [hrest, hlen2, hFne, hslice]

theorem deltaPayloads_ite_delta (c : Prop) [Decidable c] (t : String) :
    deltaPayloads (if c then [] else [Emit.transcriptDelta t]) =
      if c then [] else [t] := by
  split <;> simp [deltaPayloads]

theorem deltaPayloads_ite_final (c : Prop) [Decidable c] (t : String) :
    deltaPayloads (if c then [] else [Emit.transcriptFinal t]) = [] := by
  split <;> simp [deltaPayloads]

theorem finalPayloads_ite_delta (c : Prop) [Decidable c] (t : String) :
    finalPayloads (if c then [] else [Emit.transcriptDelta t]) = [] := by
  split <;> simp [finalPayloads]

theorem finalPayloads_ite_final (c : Prop) [Decidable c] (t : String) :
    finalPayloads (if c then [] else [Emit.transcriptFinal t]) =
      if c then [] else [t] := by
  split <;> simp [finalPayloads]

theorem concatStrings_ite (c : Prop) [Decidable c] (t : String) :
    concatStrings (if c then [] else [t]) = if c then "" else t := by
  split <;> simp [concatStrings, String.append_empty]

theorem deltaPayloads_status (m : String) : deltaPayloads [Emit.status m] = [] := by
  simp [deltaPayloads]

theorem finalPayloads_status (m : String) : finalPayloads [Emit.status m] = [] := by
  simp [finalPayloads]

theorem runDeltas_emits (itemId : String) (ds : List String) (s : TranscriberState)
    (hid : itemId ≠ "") (hA : s.activeTranscriptId ≠ some itemId) :
    (runDeltas itemId ds s).2 = ds.map Emit.transcriptDelta := by
  cases ds with
  | nil => rfl
  | cons d rest2 =>
    simp only [runDeltas, handleTranscriptDelta_fresh itemId d s hid hA]
    rw [runDeltas_matching itemId rest2
      { s with activeTranscriptId := some itemId, currentPartialText := d } hid rfl]
    simp

theorem runDeltas_partialText (itemId : String) (ds : List String) (s : TranscriberState)
    (hid : itemId ≠ "") (hA : s.activeTranscriptId ≠ some itemId)
    (hP : s.currentPartialText = "") :
    (runDeltas itemId ds s).1.currentPartialText = concatStrings ds := by
  cases ds with
  | nil => simp [runDeltas, concatStrings, hP]
  | cons d rest2 =>
    simp only [runDeltas, handleTranscriptDelta_fresh itemId d s hid hA]
    rw [runDeltas_matching itemId rest2
      { s with activeTranscriptId := some itemId, currentPartialText := d } hid rfl]
    simp [concatStrings]

theorem handleTranscriptComplete_emits_extends (itemId F rest : String)
    (s : TranscriberState) (hid : itemId ≠ "") (hF : F = s.currentPartialText ++ rest) :
    (handleTranscriptComplete itemId F s).2 =
      (if rest = "" then [] else [Emit.transcriptDelta rest]) ++
      (if F = "" then [] else [Emit.transcriptFinal F]) ++ [Emit.status "Ready."] := by
  rw [handleTranscriptComplete_extends itemId F rest s hid hF]

/-! Claim theorems. -/

/-- C1, counterexample: the claim includes the case of zero deltas with
the final text equal to their (empty) concatenation.  There the code
fires the final callback zero times — `handleTranscriptComplete` skips
the final callback for an empty final text — not exactly once with
`F = ""`. -/
theorem c1_counterexample :
    concatStrings [] = "" ∧
    finalPayloads ((runDeltas "it1" [] initialState).2 ++
      (handleTranscriptComplete "it1" "" (runDeltas "it1" [] initialState).1).2) = [] ∧
    ([] : List String) ≠ [""] := by decide

/-- C1 (amended): for every sequence of delta events `ds` for one
non-empty item id, starting from a reset reconciler, followed by a
completed event whose text `F` extends the concatenation of `ds` by
`rest`, the ordered concatenation of all delta payloads emitted up to
and including the final event equals `F`; the final callback fires
exactly once with the full `F` when `F` is non-empty, and not at all
when `F` is empty. -/
theorem c1_gap_free_amended (itemId : String) (ds : List String) (rest : String)
    (s : TranscriberState) (hid : itemId ≠ "") (hA : s.activeTranscriptId = none)
    (hP : s.currentPartialText = "") :
    concatStrings (deltaPayloads ((runDeltas itemId ds s).2 ++
        (handleTranscriptComplete itemId (concatStrings ds ++ rest)
          (runDeltas itemId ds s).1).2)) = concatStrings ds ++ rest ∧
    finalPayloads ((runDeltas itemId ds s).2 ++
        (handleTranscriptComplete itemId (concatStrings ds ++ rest)
          (runDeltas itemId ds s).1).2) =
      (if concatStrings ds ++ rest = "" then [] else [concatStrings ds ++ rest]) := by
  have hAne : s.activeTranscriptId ≠ some itemId := by rw [hA]; simp
  have hsnd := runDeltas_emits itemId ds s hid hAne
  have hcpt := runDeltas_partialText itemId ds s hid hAne hP
  have hcomp := handleTranscriptComplete_emits_extends itemId (concatStrings ds ++ rest)
    rest (runDeltas itemId ds s).1 hid (by rw [hcpt])
  rw [hsnd, hcomp]
  constructor
  · simp only [deltaPayloads_append, deltaPayloads_map, deltaPayloads_ite_delta,
      deltaPayloads_ite_final, deltaPayloads_status, List.append_nil, List.nil_append]
    rw [concatStrings_append, concatStrings_ite]
    by_cases hrest : rest = ""
    · simp [hrest]
    · rw [if_neg hrest]
  · simp only [finalPayloads_append, finalPayloads_map_delta, finalPayloads_ite_delta,
      finalPayloads_ite_final, finalPayloads_status, List.append_nil, List.nil_append]

/-- Witness for C1 (amended), at the spec §8 Scenario B inputs: deltas
"Hel", "lo " for item "it1" followed by a completed event with text
"Hello world". -/
theorem c1_witness :
    concatStrings (deltaPayloads ((runDeltas "it1" ["Hel", "lo "] initialState).2 ++
        (handleTranscriptComplete "it1" (concatStrings ["Hel", "lo "] ++ "world")
          (runDeltas "it1" ["Hel", "lo "] initialState).1).2)) =
      concatStrings ["Hel", "lo "] ++ "world" ∧
    finalPayloads ((runDeltas "it1" ["Hel", "lo "] initialState).2 ++
        (handleTranscriptComplete "it1" (concatStrings ["Hel", "lo "] ++ "world")
          (runDeltas "it1" ["Hel", "lo "] initialState).1).2) =
      (if concatStrings ["Hel", "lo "] ++ "world" = "" then []
        else [concatStrings ["Hel", "lo "] ++ "world"]) :=
  c1_gap_free_amended "it1" ["Hel", "lo "] "world" initialState (by decide) rfl rfl

/-- C2, counterexample: a second `connect()` issued while the first is
in flight (here right after the first suspension point, and the same
holds at every injection point) is a guard no-op — it creates no
attempt, emits nothing, and does not bump the token — and the first
attempt's resources (stream 0, peer connection 1, data channel 2)
remain the live set, with nothing released; the claim's assertion that
the second attempt's resource set survives and the first attempt's
resources are all released is false. -/
theorem c2_counterexample :
    (doubleConnectRun 0).1.mediaStream = some 0 ∧
    (doubleConnectRun 0).1.pc = some 1 ∧
    (doubleConnectRun 0).1.dc = some 2 ∧
    (doubleConnectRun 0).1.released = [] ∧
    (doubleConnectRun 0).1.connectToken = 1 ∧
    (doubleConnectSecondCall 0).2.2 = none ∧
    (doubleConnectSecondCall 0).2.1 = [] := by decide

/-- C2 (amended): a second `connect()` issued before the first attempt
settles returns at the `Connecting` guard, for every interleaving of
the suspension points: it creates no attempt, emits nothing, and
leaves the token untouched.  Exactly one live resource set remains —
the FIRST attempt's — nothing is released, and the live generation
token (1) equals the maximum (and only) token issued. -/
theorem c2_supersession_amended (k : Nat) (hk : k ≤ 5) :
    (doubleConnectRun k).1.mediaStream = some 0 ∧
    (doubleConnectRun k).1.pc = some 1 ∧
    (doubleConnectRun k).1.dc = some 2 ∧
    (doubleConnectRun k).1.released = [] ∧
    (doubleConnectRun k).1.connectToken = 1 ∧
    (doubleConnectSecondCall k).2.2 = none ∧
    (doubleConnectSecondCall k).2.1 = [] ∧
    (doubleConnectSecondCall k).1.connectToken = 1 := by
  interval_cases k <;> decide

/-- Witness for C2 (amended) at injection point 2. -/
theorem c2_witness :
    (doubleConnectRun 2).1.mediaStream = some 0 ∧
    (doubleConnectRun 2).1.pc = some 1 ∧
    (doubleConnectRun 2).1.dc = some 2 ∧
    (doubleConnectRun 2).1.released = [] ∧
    (doubleConnectRun 2).1.connectToken = 1 ∧
    (doubleConnectSecondCall 2).2.2 = none ∧
    (doubleConnectSecondCall 2).2.1 = [] ∧
    (doubleConnectSecondCall 2).1.connectToken = 1 :=
  c2_supersession_amended 2 (by decide)

/-- C3, counterexample: in the successful first start of Scenario A,
the claimed observation order — with the connection-state change to
`Connected` before the "Connected. Configuring." status — does not
occur (even as a subsequence of the full log): `handleDataChannelOpen`
emits the status first and the state change second. -/
theorem c3_counterexample :
    isSubseq
      [Emit.status "Requesting microphone.", Emit.status "Building connection.",
       Emit.status "Exchanging SDP.", Emit.status "Waiting for channel.",
       Emit.connectionStateChange ConnectionState.connected,
       Emit.status "Connected. Configuring.", Emit.listeningChange true]
      scenarioALog = false := by decide

/-- C3 (amended): the full observed callback log of a successful first
start is: state→Connecting, status "Requesting microphone.", status
"Building connection.", status "Exchanging SDP.", status
"Waiting for channel.", status "Connected. Configuring.",
state→Connected, the session-configuration send, listening→true, and
status "Listening." — the "Connected. Configuring." status precedes
the state change to Connected, and the claimed seven events do occur
in this adjusted order. -/
theorem c3_scenario_a_amended :
    scenarioALog =
      [Emit.connectionStateChange ConnectionState.connecting,
       Emit.status "Requesting microphone.",
       Emit.status "Building connection.",
       Emit.status "Exchanging SDP.",
       Emit.status "Waiting for channel.",
       Emit.status "Connected. Configuring.",
       Emit.connectionStateChange ConnectionState.connected,
       Emit.send OutboundMessage.sessionUpdate,
       Emit.listeningChange true,
       Emit.status "Listening."] ∧
    isSubseq
      [Emit.status "Requesting microphone.", Emit.status "Building connection.",
       Emit.status "Exchanging SDP.", Emit.status "Waiting for channel.",
       Emit.status "Connected. Configuring.",
       Emit.connectionStateChange ConnectionState.connected,
       Emit.listeningChange true]
      scenarioALog = true := by decide

/-- The listening invariant the session actually maintains: the
listening flag is raised only while the connection state is not
`Disconnected`. -/
def listeningInvariant (s : TranscriberState) : Prop :=
  s.listening = true → s.connectionState ≠ ConnectionState.disconnected

theorem setListeningState_listening_false (s : TranscriberState) :
    (setListeningState false s).1.listening = false := by
  unfold setListeningState
  split
  · next h => exact h
  · rfl

theorem setListeningState_connectionState (b : Bool) (s : TranscriberState) :
    (setListeningState b s).1.connectionState = s.connectionState := by
  unfold setListeningState
  split <;> rfl

theorem stopListening_listening (b : Bool) (s : TranscriberState) :
    (stopListening b s).1.listening = false := by
  unfold stopListening
  split
  · next h => exact h
  · split <;> exact setListeningState_listening_false _

theorem inv_setConnectionState (st : ConnectionState) (s : TranscriberState) :
    listeningInvariant (setConnectionState st s).1 := by
  unfold listeningInvariant setConnectionState setListeningState
  rcases st <;> rcases hc : s.connectionState <;> rcases hl : s.listening <;>
    simp [hc, hl]

theorem stepStop_listening (s : TranscriberState) :
    ((if s.listening then stopListening true s else (s, [])).1).listening = false := by
  split
  · exact stopListening_listening true s
  · next h => simpa using h

theorem releaseDc_fields (s : TranscriberState) :
    (releaseDc s).listening = s.listening ∧
    (releaseDc s).connectionState = s.connectionState := by
  unfold releaseDc
  rcases hdc : s.dc with _ | r <;> exact ⟨rfl, rfl⟩

theorem releasePc_fields (s : TranscriberState) :
    (releasePc s).listening = s.listening ∧
    (releasePc s).connectionState = s.connectionState := by
  unfold releasePc
  rcases hpc : s.pc with _ | r <;> exact ⟨rfl, rfl⟩

theorem releaseStream_fields (s : TranscriberState) :
    (releaseStream s).listening = s.listening ∧
    (releaseStream s).connectionState = s.connectionState := by
  unfold releaseStream
  rcases hms : s.mediaStream with _ | r <;> exact ⟨rfl, rfl⟩

theorem inv_teardown (o : TeardownOptions) (s : TranscriberState) :
    listeningInvariant (teardown o s).1 := by
  simp only [teardown]
  split
  · intro hl
    exfalso
    rw [show ∀ t : TranscriberState, (resetTranscriptState t).listening = t.listening
        from fun t => rfl] at hl
    rw [(releaseStream_fields _).1, (releasePc_fields _).1, (releaseDc_fields _).1] at hl
    rw [stepStop_listening] at hl
    exact Bool.noConfusion hl
  · exact inv_setConnectionState _ _

theorem inv_connectStart (s : TranscriberState) :
    listeningInvariant (connectStart s).1 := by
  simp only [connectStart]
  split
  · next h => intro _; rw [h]; simp
  · split
    · next h => intro _; rw [h]; simp
    · exact inv_teardown _ _

theorem inv_resumeAfterGetUserMedia (a : ConnectAttempt) (s : TranscriberState)
    (h : listeningInvariant s) : listeningInvariant (resumeAfterGetUserMedia a s).1 := by
  simp only [resumeAfterGetUserMedia]
  split
  · exact h
  · split
    · exact h
    · exact h

theorem inv_resumeAfterCreateOffer (a : ConnectAttempt) (s : TranscriberState)
    (h : listeningInvariant s) : listeningInvariant (resumeAfterCreateOffer a s).1 := by
  simp only [resumeAfterCreateOffer]
  split
  · exact h
  · exact h

theorem inv_resumeAfterSetLocalDescription (a : ConnectAttempt) (s : TranscriberState)
    (h : listeningInvariant s) :
    listeningInvariant (resumeAfterSetLocalDescription a s).1 := by
  simp only [resumeAfterSetLocalDescription]
  split
  · exact h
  · exact h

theorem inv_connectCatch (msg : String) (a : ConnectAttempt) (s : TranscriberState)
    (h : listeningInvariant s) : listeningInvariant (connectCatch msg a s).1 := by
  simp only [connectCatch]
  split
  · exact h
  · exact inv_setConnectionState _ _

theorem inv_resumeAfterFetch (ok : Bool) (st : String) (a : ConnectAttempt)
    (s : TranscriberState) (h : listeningInvariant s) :
    listeningInvariant (resumeAfterFetch ok st a s).1 := by
  simp only [resumeAfterFetch]
  split
  · exact h
  · split
    · exact inv_connectCatch _ _ _ h
    · exact h

theorem inv_resumeAfterResponseText (a : ConnectAttempt) (s : TranscriberState)
    (h : listeningInvariant s) : listeningInvariant (resumeAfterResponseText a s).1 := by
  simp only [resumeAfterResponseText]
  split
  · exact h
  · exact h

theorem inv_resumeAfterSetRemoteDescription (a : ConnectAttempt) (s : TranscriberState)
    (h : listeningInvariant s) :
    listeningInvariant (resumeAfterSetRemoteDescription a s).1 := by
  simp only [resumeAfterSetRemoteDescription]
  split
  · exact h
  · exact h

theorem inv_disconnect (s : TranscriberState) : listeningInvariant (disconnect s).1 := by
  unfold disconnect
  exact inv_teardown _ _

theorem inv_startListeningTail (s : TranscriberState)
    (hc : s.connectionState ≠ ConnectionState.disconnected) :
    listeningInvariant (startListeningTail s).1 := by
  simp only [startListeningTail]
  split
  · exact fun _ => hc
  · intro _
    rw [setListeningState_connectionState]
    rw [show ∀ t : TranscriberState, (resetTranscriptState t).connectionState =
        t.connectionState from fun t => rfl]
    split <;> exact hc

theorem inv_startListeningResume (s : TranscriberState) (h : listeningInvariant s) :
    listeningInvariant (startListeningResume s).1 := by
  simp only [startListeningResume]
  split
  · exact h
  · next hne =>
    refine inv_startListeningTail s ?_
    have hcon : s.connectionState = ConnectionState.connected := by
      by_contra hx
      exact hne (by exact hx)
    rw [hcon]
    simp

theorem inv_stopListening (b : Bool) (s : TranscriberState) :
    listeningInvariant (stopListening b s).1 := by
  intro hl
  rw [stopListening_listening] at hl
  exact Bool.noConfusion hl

theorem handleTranscriptDelta_fields (i d : String) (s : TranscriberState) :
    (handleTranscriptDelta i d s).1.listening = s.listening ∧
    (handleTranscriptDelta i d s).1.connectionState = s.connectionState := by
  simp only [handleTranscriptDelta]
  split
  · exact ⟨rfl, rfl⟩
  · split <;> exact ⟨rfl, rfl⟩

theorem handleTranscriptComplete_fields (i t : String) (s : TranscriberState) :
    (handleTranscriptComplete i t s).1.listening = s.listening ∧
    (handleTranscriptComplete i t s).1.connectionState = s.connectionState := by
  simp only [handleTranscriptComplete]
  repeat' split
  all_goals exact ⟨rfl, rfl⟩

theorem onRealtimeEvent_fields (ev : InboundMessage) (s : TranscriberState) :
    (onRealtimeEvent ev s).1.listening = s.listening ∧
    (onRealtimeEvent ev s).1.connectionState = s.connectionState := by
  cases ev with
  | notText => exact ⟨rfl, rfl⟩
  | malformed => exact ⟨rfl, rfl⟩
  | value v =>
    cases v with
    | obj fields =>
      simp only [onRealtimeEvent]
      repeat' split
      all_goals first
        | exact ⟨rfl, rfl⟩
        | exact handleTranscriptDelta_fields _ _ _
        | exact handleTranscriptComplete_fields _ _ _
    | str a => exact ⟨rfl, rfl⟩
    | num a => exact ⟨rfl, rfl⟩
    | boolean a => exact ⟨rfl, rfl⟩
    | null => exact ⟨rfl, rfl⟩
    | arr a => exact ⟨rfl, rfl⟩

theorem inv_onRealtimeEvent (ev : InboundMessage) (s : TranscriberState)
    (h : listeningInvariant s) : listeningInvariant (onRealtimeEvent ev s).1 := by
  intro hl
  rw [(onRealtimeEvent_fields ev s).2]
  rw [(onRealtimeEvent_fields ev s).1] at hl
  exact h hl

theorem inv_handleDataChannelOpen (tok : Nat) (s : TranscriberState)
    (h : listeningInvariant s) : listeningInvariant (handleDataChannelOpen tok s).1 := by
  simp only [handleDataChannelOpen]
  split
  · exact h
  · intro hl
    rw [show ∀ t : TranscriberState, (resetTranscriptState t).connectionState =
        t.connectionState from fun t => rfl]
    rw [show ∀ t : TranscriberState, (resetTranscriptState t).listening =
        t.listening from fun t => rfl] at hl
    exact inv_setConnectionState _ _ hl

theorem inv_channelOpenEvent (tok : Nat) (s : TranscriberState)
    (h : listeningInvariant s) : listeningInvariant (channelOpenEvent tok s).1 := by
  simp only [channelOpenEvent]
  refine inv_handleDataChannelOpen tok _ ?_
  split
  · exact h
  · exact h

theorem inv_handleDataChannelClosed (tok : Nat) (s : TranscriberState)
    (h : listeningInvariant s) : listeningInvariant (handleDataChannelClosed tok s).1 := by
  simp only [handleDataChannelClosed]
  split
  · exact h
  · exact inv_teardown _ _

theorem inv_handlePeerConnectionStateChange (tok : Nat) (ps : PeerConnectionState)
    (s : TranscriberState) (h : listeningInvariant s) :
    listeningInvariant (handlePeerConnectionStateChange tok ps s).1 := by
  simp only [handlePeerConnectionStateChange]
  split
  · exact h
  · split
    · exact inv_teardown _ _
    · exact h

theorem inv_applyOp (op : Op) (s : TranscriberState) (h : listeningInvariant s) :
    listeningInvariant (applyOp op s).1 := by
  cases op with
  | connectCall => exact inv_connectStart s
  | resumeGetUserMedia a => exact inv_resumeAfterGetUserMedia a s h
  | resumeCreateOffer a => exact inv_resumeAfterCreateOffer a s h
  | resumeSetLocalDescription a => exact inv_resumeAfterSetLocalDescription a s h
  | resumeFetch ok st a => exact inv_resumeAfterFetch ok st a s h
  | resumeResponseText a => exact inv_resumeAfterResponseText a s h
  | resumeSetRemoteDescription a => exact inv_resumeAfterSetRemoteDescription a s h
  | connectThrow msg a => exact inv_connectCatch msg a s h
  | disconnectCall => exact inv_disconnect s
  | disposeCall => exact inv_disconnect s
  | startListeningCall =>
    simp only [applyOp]
    split
    · exact inv_connectStart s
    · next hne => exact inv_startListeningTail s hne
  | startListeningResumeOp => exact inv_startListeningResume s h
  | stopListeningCall b => exact inv_stopListening b s
  | channelOpen tok => exact inv_channelOpenEvent tok s h
  | channelClosed tok => exact inv_handleDataChannelClosed tok s h
  | peerStateChange tok ps => exact inv_handlePeerConnectionStateChange tok ps s h
  | message ev => exact inv_onRealtimeEvent ev s h

theorem inv_runOps (ops : List Op) (s : TranscriberState) (h : listeningInvariant s) :
    listeningInvariant (runOps ops s) := by
  induction ops generalizing s with
  | nil => exact h
  | cons op rest ih => exact ih _ (inv_applyOp op s h)

/-- C4, counterexample: `startListening()` called while a connect
attempt is in flight (state `Connecting`) skips the connect branch and
raises the listening flag synchronously, so the observable state has
Listening = true while ConnectionState = Connecting ≠ Connected. -/
theorem c4_counterexample :
    (runOps [Op.connectCall, Op.startListeningCall] initialState).listening = true ∧
    (runOps [Op.connectCall, Op.startListeningCall] initialState).connectionState =
      ConnectionState.connecting ∧
    ConnectionState.connecting ≠ ConnectionState.connected := by decide

/-- C4 (amended): after every trace of public operations and handler
resumptions from the initial state, Listening = true implies
ConnectionState ≠ Disconnected (listening can coexist with
`Connecting`, but never with `Disconnected`); and whenever the
connection state is set to a non-Connected value while listening, the
listening-change(false) callback fires before the state-change
callback (and before any other effect of the transition). -/
theorem c4_invariant_amended :
    (∀ ops : List Op, (runOps ops initialState).listening = true →
      (runOps ops initialState).connectionState ≠ ConnectionState.disconnected) ∧
    (∀ (s : TranscriberState) (st : ConnectionState), st ≠ ConnectionState.connected →
      s.listening = true →
      (setConnectionState st s).2 = Emit.listeningChange false ::
        (if s.connectionState = st then [] else [Emit.connectionStateChange st])) := by
  constructor
  · intro ops
    exact inv_runOps ops initialState (fun hl => Bool.noConfusion hl)
  · intro s st hst hl
    rcases st <;> rcases hc : s.connectionState <;>
      first
        | exact absurd rfl hst
        | simp [setConnectionState, setListeningState, hc, hl]

/-- Witness for C4 (amended), at the trace of the counterexample state
and a forced transition to Disconnected. -/
theorem c4_witness :
    (runOps [Op.connectCall, Op.startListeningCall] initialState).connectionState ≠
      ConnectionState.disconnected ∧
    (setConnectionState ConnectionState.disconnected
        (runOps [Op.connectCall, Op.startListeningCall] initialState)).2 =
      Emit.listeningChange false ::
        (if (runOps [Op.connectCall, Op.startListeningCall] initialState).connectionState =
            ConnectionState.disconnected then []
         else [Emit.connectionStateChange ConnectionState.disconnected]) :=
  ⟨c4_invariant_amended.1 [Op.connectCall, Op.startListeningCall] (by decide),
   c4_invariant_amended.2 (runOps [Op.connectCall, Op.startListeningCall] initialState)
     ConnectionState.disconnected (by decide) (by decide)⟩

theorem statusEmit_disconnected :
    statusEmit "Disconnected." = [Emit.status "Disconnected."] := by decide

/-- C5, counterexample: `disconnect()` when already Disconnected is
not a no-op — it still fires the status callback with "Disconnected."
and increments the generation token. -/
theorem c5_counterexample :
    initialState.connectionState = ConnectionState.disconnected ∧
    (disconnect initialState).2 = [Emit.status "Disconnected."] ∧
    (disconnect initialState).1.connectToken = initialState.connectToken + 1 ∧
    ([Emit.status "Disconnected."] : List Emit) ≠ [] := by decide

/-- C5 (amended): `stopListening()` while not listening is a strict
no-op — no callback fires and no state field changes.  `disconnect()`
when already Disconnected (with no live resources) fires no
state-change, listening-change, error, or transcript callback and
leaves the connection state, listening flag, and resource fields
unchanged, but it does emit one "Disconnected." status callback and
increments the generation token (and clears the transcript
accumulator). -/
theorem c5_idempotence_amended :
    (∀ (skip : Bool) (s : TranscriberState), s.listening = false →
      stopListening skip s = (s, [])) ∧
    (∀ s : TranscriberState, s.connectionState = ConnectionState.disconnected →
      s.listening = false → s.dc = none → s.pc = none → s.mediaStream = none →
      disconnect s =
        ({ s with
            connectToken := s.connectToken + 1
            activeTranscriptId := none
            currentPartialText := "" },
          [Emit.status "Disconnected."])) := by
  constructor
  · intro skip s h
    simp [stopListening, h]
  · intro s h1 h2 h3 h4 h5
    simp [disconnect, invalidateConnectionAttempts, teardown, releaseDc, releasePc,
      releaseStream, resetTranscriptState, setConnectionState, setListeningState,
      statusEmit_disconnected, h1, h2, h3, h4, h5]

/-- Witness for C5 (amended) at a concrete disconnected state. -/
theorem c5_witness :
    stopListening false initialState = (initialState, []) ∧
    disconnect initialState =
      ({ initialState with
          connectToken := initialState.connectToken + 1
          activeTranscriptId := none
          currentPartialText := "" },
        [Emit.status "Disconnected."]) :=
  ⟨c5_idempotence_amended.1 false initialState rfl,
   c5_idempotence_amended.2 initialState rfl rfl rfl rfl rfl⟩

/-- C6, counterexample: for an `error` event whose nested message is
present but empty, the callbacks carry `"unknown"`, not the nested
error message `""` — the "unknown" fallback also covers present-but-
empty (and non-string) message fields, not only absent ones. -/
theorem c6_counterexample :
    onRealtimeEvent
        (.value (.obj [("type", .str "error"), ("error", .obj [("message", .str "")])]))
        initialState =
      (initialState, [Emit.status "Error: unknown", Emit.error "unknown"]) ∧
    getString [("message", JsonValue.str "")] "message" = some "" ∧
    ("unknown" : String) ≠ "" := by decide

/-- C6 (amended): processing an inbound object whose type is `error`
or `response.error` fires exactly one status callback ("Error: " plus
the extracted message) and one error callback with that message —
where the message falls back to "unknown" when the nested field is
absent, not a string, or empty — and leaves the whole session state
(connection state, listening flag, transport, channel, stream)
unchanged: no teardown occurs. -/
theorem c6_error_event_amended (s : TranscriberState)
    (fields : List (String × JsonValue))
    (h : (getString fields "type").getD "" = "error" ∨
      (getString fields "type").getD "" = "response.error") :
    onRealtimeEvent (.value (.obj fields)) s =
      (s, statusEmit ("Error: " ++ extractErrorMessage fields) ++
        [Emit.error (extractErrorMessage fields)]) := by
  rcases h with h | h
  · simp [onRealtimeEvent, h]
  · simp [onRealtimeEvent, h]

/-- Witness for C6 (amended) at a concrete `response.error` event. -/
theorem c6_witness :
    onRealtimeEvent
        (.value (.obj [("type", JsonValue.str "response.error"),
          ("error", JsonValue.obj [("message", JsonValue.str "boom")])]))
        initialState =
      (initialState,
        statusEmit ("Error: " ++ extractErrorMessage
          [("type", JsonValue.str "response.error"),
            ("error", JsonValue.obj [("message", JsonValue.str "boom")])]) ++
        [Emit.error (extractErrorMessage
          [("type", JsonValue.str "response.error"),
            ("error", JsonValue.obj [("message", JsonValue.str "boom")])])]) :=
  c6_error_event_amended initialState
    [("type", JsonValue.str "response.error"),
      ("error", JsonValue.obj [("message", JsonValue.str "boom")])]
    (Or.inr (by decide))

/-- C7 (confirmed): an inbound channel message that is not a string
payload, fails to parse, parses to a non-object, or carries a type
tag outside the recognized set is silently discarded: no callback of
any kind fires (in particular not the error callback) and the session
state is unchanged. -/
theorem c7_unrecognized_dropped (s : TranscriberState) (ev : InboundMessage)
    (h : ev = .notText ∨ ev = .malformed ∨
      (∃ v, ev = .value v ∧ isJsonObject v = false) ∨
      (∃ fields, ev = .value (.obj fields) ∧
        ((getString fields "type").getD "") ∉ recognizedTypes)) :
    onRealtimeEvent ev s = (s, []) := by
  rcases h with h | h | ⟨v, hv, hobj⟩ | ⟨fields, hv, hty⟩
  · subst h; rfl
  · subst h; rfl
  · subst hv
    cases v with
    | obj f => simp [isJsonObject] at hobj
    | str a => rfl
    | num a => rfl
    | boolean a => rfl
    | null => rfl
    | arr a => rfl
  · subst hv
    simp only [recognizedTypes, List.mem_cons, List.not_mem_nil, or_false, not_or] at hty
    obtain ⟨h1, h2, h3, h4, h5, h6, h7, h8⟩ := hty
    simp [onRealtimeEvent, h1, h2, h3, h4, h5, h6, h7, h8]

/-- Witness for C7 at a concrete unrecognized type tag. -/
theorem c7_witness :
    onRealtimeEvent (.value (.obj [("type", JsonValue.str "totally.unknown")]))
      initialState = (initialState, []) :=
  c7_unrecognized_dropped initialState _
    (Or.inr (Or.inr (Or.inr ⟨[("type", JsonValue.str "totally.unknown")], rfl, by decide⟩)))

/-- C8 (confirmed): with no credential set, the orchestrator's
`ensureConnected` and `startListening` fail immediately with the
credential-missing error "OpenAI API key required.": the error state
is set, the call rejects, no session is constructed, and no
negotiation step is started. -/
theorem c8_no_credential (o : OrchestratorState) (listener : Option Nat)
    (h : o.apiKey = none) :
    ensureConnectedEntry o =
      ({ o with errorText := some "OpenAI API key required." },
        EnsureOutcome.failedNoKey) ∧
    (ensureConnectedEntry o).1.transcriber = o.transcriber ∧
    orchStartListeningEntry listener o =
      ({ o with
          listener := listener
          errorText := some "OpenAI API key required." },
        EnsureOutcome.failedNoKey) ∧
    (orchStartListeningEntry listener o).1.transcriber = o.transcriber := by
  refine ⟨?_, ?_, ?_, ?_⟩ <;>
    simp [ensureConnectedEntry, orchStartListeningEntry, h]

/-- Witness for C8 at the default (credential-less) orchestrator
state. -/
theorem c8_witness :
    (ensureConnectedEntry ({} : OrchestratorState)).2 = EnsureOutcome.failedNoKey ∧
    (orchStartListeningEntry (some 7) ({} : OrchestratorState)).2 =
      EnsureOutcome.failedNoKey := by
  have h := c8_no_credential ({} : OrchestratorState) (some 7) rfl
  exact ⟨by rw [h.1], by rw [h.2.2.1]⟩

/-- C9 (confirmed): when a completed event arrives for an item id
other than the active one, `handleTranscriptComplete` switches the id
without resetting the accumulated partial buffer, so the suffix
forwarded to the delta callback is the final text with a prefix of
the PREVIOUS item's accumulated length removed — and no delta fires
at all when the final text is not longer than that stale buffer. -/
theorem c9_stale_suffix (s : TranscriberState) (itemId F : String)
    (hid : itemId ≠ "") (_hA : s.activeTranscriptId ≠ some itemId) :
    handleTranscriptComplete itemId F s =
      (resetTranscriptState s,
        (if F ≠ "" ∧ s.currentPartialText.length < F.length then
          [Emit.transcriptDelta (sliceFrom F s.currentPartialText.length)] else []) ++
        (if F ≠ "" then [Emit.transcriptFinal F] else []) ++ [Emit.status "Ready."]) := by
  rw [handleTranscriptComplete_eq itemId F s hid]
  by_cases hcond : F ≠ "" ∧ s.currentPartialText.length < F.length
  · rw [if_pos hcond, if_pos hcond,
      if_pos (sliceFrom_ne_empty F s.currentPartialText.length hcond.2)]
  · rw [if_neg hcond, if_neg hcond]

/-- Witness for C9: with "Hel" accumulated for item "it1", a completed
event for "it2" with text "Hi" emits no delta at all (the stale
3-character cut swallows the 2-character final text), though the
final callback fires. -/
theorem c9_witness :
    deltaPayloads (handleTranscriptComplete "it2" "Hi"
      { initialState with
          activeTranscriptId := some "it1"
          currentPartialText := "Hel" }).2 = [] ∧
    finalPayloads (handleTranscriptComplete "it2" "Hi"
      { initialState with
          activeTranscriptId := some "it1"
          currentPartialText := "Hel" }).2 = ["Hi"] := by
  have h := c9_stale_suffix
    { initialState with
        activeTranscriptId := some "it1"
        currentPartialText := "Hel" } "it2" "Hi" (by decide) (by decide)
  constructor
  · rw [h]; decide
  · rw [h]; decide

theorem jsTrim_eq_empty_iff (s : String) :
    jsTrim s = "" ↔ s.data.all jsWhitespace = true := by
  constructor
  · intro h
    have hdata : ((s.data.dropWhile jsWhitespace).reverse.dropWhile jsWhitespace).reverse
        = [] := congrArg String.data h
    rw [List.reverse_eq_nil_iff] at hdata
    have h2 := List.dropWhile_eq_nil_iff.mp hdata
    have h3 : ∀ x ∈ s.data.dropWhile jsWhitespace, jsWhitespace x := by
      intro x hx
      exact h2 x (List.mem_reverse.mpr hx)
    have h5 : ∀ x ∈ s.data, jsWhitespace x := by
      intro x hx
      rw [← @List.takeWhile_append_dropWhile _ jsWhitespace s.data] at hx
      rcases List.mem_append.mp hx with hx1 | hx2
      · exact List.mem_takeWhile_imp hx1
      · exact h3 x hx2
    exact List.all_eq_true.mpr h5
  · intro h
    have h5 := List.all_eq_true.mp h
    have h4 : s.data.dropWhile jsWhitespace = [] :=
      List.dropWhile_eq_nil_iff.mpr fun x hx => h5 x hx
    unfold jsTrim
    rw [h4]
    rfl

/-- C10 (confirmed): constructing a `RealtimeTranscriber` with a
credential that is empty or all JavaScript whitespace throws the
"API key is required" error synchronously (no instance, no callback);
construction with any string containing a non-whitespace character
yields a fresh instance. -/
theorem c10_constructor_guard (key : String) :
    (key.data.all jsWhitespace = true →
      mkTranscriber key =
        Except.error "API key is required to initialise RealtimeTranscriber") ∧
    (key.data.all jsWhitespace = false →
      mkTranscriber key = Except.ok (initialTranscriber key)) := by
  constructor
  · intro h
    unfold mkTranscriber
    rw [if_pos ((jsTrim_eq_empty_iff key).mpr h)]
  · intro h
    have hne : ¬ jsTrim key = "" := by
      intro hc
      have h6 := (jsTrim_eq_empty_iff key).mp hc
      rw [h] at h6
      exact Bool.noConfusion h6
    unfold mkTranscriber
    rw [if_neg hne]

/-- Witness for C10: an all-whitespace key throws, a real key
constructs. -/
theorem c10_witness :
    mkTranscriber "   " =
      Except.error "API key is required to initialise RealtimeTranscriber" ∧
    mkTranscriber "sk-live" = Except.ok (initialTranscriber "sk-live") :=
  ⟨(c10_constructor_guard "   ").1 (by decide),
   (c10_constructor_guard "sk-live").2 (by decide)⟩

end Diary
